import Mathlib

/-!
Shallow embedding of the risk-gated execution engine of the TradeOptions
repository: cost model (src/src/broker/cost_model.py), Kelly sizing
(src/risk/strategies/kelly.py), risk manager (src/risk/risk_manager.py),
backtest broker (src/src/broker/backtest_broker.py), paper broker
(src/src/broker/paper_broker.py), trading state (src/state/state_manager.py)
and the force-exit step of the backtest runner (src/src/backtest_runner.py).

Money amounts are modelled over ℚ (exact arithmetic standing for the
source's floats); Python's `round(x, 2)` is modelled as round-half-even at
two decimals, `int(x)` as truncation toward zero, `//` as floor division.
-/

/-- Floor of a rational (kernel-computable form). -/
def floorQ (x : ℚ) : ℤ := x.num.fdiv x.den

/-- Ceiling of a rational. -/
def ceilQ (x : ℚ) : ℤ := -floorQ (-x)

/-- Minimum of two rationals (kernel-computable form). -/
def minQ (a b : ℚ) : ℚ := if a ≤ b then a else b

/-- Absolute value of a rational (kernel-computable form). -/
def absQ (a : ℚ) : ℚ := if a < 0 then -a else a

/-- Round-half-even to the nearest integer (Python's `round` on exact values). -/
def roundHalfEvenZ (x : ℚ) : ℤ :=
  let f : ℤ := floorQ x
  let frac : ℚ := x - f
  if frac < 1/2 then f
  else if 1/2 < frac then f + 1
  else if f % 2 = 0 then f else f + 1

/-- Python's `round(x, 2)`: round-half-even at two decimal places. -/
def roundQ2 (x : ℚ) : ℚ := (roundHalfEvenZ (100 * x) : ℚ) / 100

/-- Python's `int(x)` applied to a float: truncation toward zero. -/
def pyTrunc (x : ℚ) : ℤ := if 0 ≤ x then floorQ x else ceilQ x

/-! ## CostModel (src/src/broker/cost_model.py) -/

/-- Itemized cost breakdown for a single leg, as returned by
`CostModel.get_breakdown`. -/
structure CostBreakdown where
  brokerage : ℚ
  stt : ℚ
  exchange_charges : ℚ
  stamp_duty : ℚ
  sebi_fees : ℚ
  gst : ℚ
  total : ℚ
  deriving Repr, DecidableEq

/-- `CostModel.get_breakdown(price, quantity, side)`: flat brokerage 20,
STT 0.1% on SELL only, exchange 0.035%, stamp duty 0.003% on BUY only,
SEBI 0.00015%, GST 18% on (brokerage + exchange + SEBI); the total (and
only the total) is rounded to two decimals. -/
def getBreakdown (price : ℚ) (quantity : ℤ) (side : String) : CostBreakdown :=
  let turnover : ℚ := price * quantity
  let brokerage : ℚ := 20
  let stt : ℚ := if side = "SELL" then turnover * (1/1000) else 0
  let exchange_charges : ℚ := turnover * (35/100000)
  let stamp_duty : ℚ := if side = "BUY" then turnover * (3/100000) else 0
  let sebi_fees : ℚ := turnover * (15/10000000)
  let gst : ℚ := (brokerage + exchange_charges + sebi_fees) * (18/100)
  let total : ℚ := brokerage + stt + exchange_charges + stamp_duty + sebi_fees + gst
  { brokerage := brokerage, stt := stt, exchange_charges := exchange_charges,
    stamp_duty := stamp_duty, sebi_fees := sebi_fees, gst := gst,
    total := roundQ2 total }

/-- `CostModel.calculate_transaction_cost`: the total of the breakdown. -/
def calculateTransactionCost (price : ℚ) (quantity : ℤ) (side : String) : ℚ :=
  (getBreakdown price quantity side).total

/-! ## KellyRiskStrategy (src/risk/strategies/kelly.py) -/

/-- `KellyRiskStrategy.calculate_size`: Kelly fraction (p(b+1)-1)/b,
quarter-Kelly dampening, hard cap, risk amount / per-share risk, truncated
to int and floored to a lot multiple. Parameters `win_rate`, `payoff_b`
and `lot_size` are the strategy's constructor fields (defaults 0.45, 2.0,
25). -/
def kellyCalculateSize (capital entry_price stop_loss risk_cap_pct
    win_rate payoff_b : ℚ) (lot_size : ℤ) : ℤ :=
  if payoff_b ≤ 0 then 0
  else
    let kelly_fraction : ℚ := (win_rate * (payoff_b + 1) - 1) / payoff_b
    let target_fraction : ℚ := kelly_fraction / 4
    let allowed_fraction : ℚ := minQ target_fraction risk_cap_pct
    if allowed_fraction ≤ 0 then 0
    else
      let risk_amount : ℚ := capital * allowed_fraction
      let risk_per_share : ℚ := absQ (entry_price - stop_loss)
      if risk_per_share ≤ 0 then 0
      else
        let raw_quantity : ℤ := pyTrunc (risk_amount / risk_per_share)
        let lots : ℤ := Int.fdiv raw_quantity lot_size
        lots * lot_size

/-- The default strategy instance `KellyRiskStrategy()` used by the risk
manager: win_rate=0.45, payoff=2.0, lot_size=25. -/
def kellyDefaultSize (capital entry_price stop_loss risk_cap_pct : ℚ) : ℤ :=
  kellyCalculateSize capital entry_price stop_loss risk_cap_pct (45/100) 2 25

/-! ## RiskManager (src/risk/risk_manager.py) -/

/-- The mutable fields of `RiskManager` (the sizing strategy is fixed to the
default Kelly instance, as in `RiskManager.__init__`). -/
structure RiskManagerS where
  total_capital : ℚ
  current_capital : ℚ
  max_daily_loss_limit : ℚ
  min_rr : ℚ
  daily_pnl : ℚ
  kill_switch_active : Bool
  deriving Repr, DecidableEq

/-- `RiskManager.__init__(total_capital, max_daily_loss_pct, min_risk_reward_ratio)`. -/
def riskInit (total_capital max_daily_loss_pct min_rr : ℚ) : RiskManagerS :=
  { total_capital := total_capital
    current_capital := total_capital
    max_daily_loss_limit := -(total_capital * max_daily_loss_pct)
    min_rr := min_rr
    daily_pnl := 0
    kill_switch_active := false }

/-- `RiskManager.check_kill_switch`: returns true iff daily_pnl ≤ limit, and
sets (never clears) the flag in that case. -/
def checkKillSwitch (s : RiskManagerS) : RiskManagerS × Bool :=
  if s.daily_pnl ≤ s.max_daily_loss_limit then
    ({ s with kill_switch_active := true }, true)
  else (s, false)

/-- Result of `RiskManager.validate_trade_setup`. -/
structure ValidateResult where
  approved : Bool
  reason : String
  deriving Repr, DecidableEq

/-- `RiskManager.validate_trade_setup(entry, stop, target)`; the state is
returned as well because `check_kill_switch` may set the flag. -/
def validateTradeSetup (s : RiskManagerS) (entry_price stop_loss target_price : ℚ) :
    RiskManagerS × ValidateResult :=
  let c := checkKillSwitch s
  if c.2 then (c.1, { approved := false, reason := "Kill Switch Active" })
  else
    let risk : ℚ := absQ (entry_price - stop_loss)
    let reward : ℚ := absQ (target_price - entry_price)
    if risk ≤ 0 then
      (c.1, { approved := false, reason := "Invalid Risk (Stop Loss == Entry)" })
    else
      let rr_val : ℚ := reward / risk
      if rr_val < s.min_rr then
        (c.1, { approved := false, reason := "R:R below minimum" })
      else (c.1, { approved := true, reason := "Approved" })

/-- `RiskManager.get_target_size(entry, stop)`: 0 when the kill switch flag
is set, else the default Kelly strategy at the current capital with the hard
5% cap. -/
def getTargetSize (s : RiskManagerS) (entry_price stop_loss : ℚ) : ℤ :=
  if s.kill_switch_active then 0
  else kellyDefaultSize s.current_capital entry_price stop_loss (5/100)

/-- `RiskManager.update_pnl(pnl)`: add to daily pnl and capital, re-check the
kill switch. -/
def updatePnl (s : RiskManagerS) (pnl : ℚ) : RiskManagerS :=
  (checkKillSwitch
    { s with daily_pnl := s.daily_pnl + pnl,
             current_capital := s.current_capital + pnl }).1

/-- `RiskManager.restore_state(daily_pnl, kill_switch_active)`. -/
def restoreState (s : RiskManagerS) (daily_pnl : ℚ) (kill : Bool) : RiskManagerS :=
  { s with daily_pnl := daily_pnl,
           current_capital := s.total_capital + daily_pnl,
           kill_switch_active := kill }

/-- A sequence of `update_pnl` calls. -/
def applyUpdates (s : RiskManagerS) (l : List ℚ) : RiskManagerS :=
  l.foldl updatePnl s

/-! ## Association-list model of Python dicts keyed by symbol -/

/-- Dict lookup. -/
def assocLookup {α : Type} (l : List (String × α)) (k : String) : Option α :=
  match l with
  | [] => none
  | (k', v) :: t => if k' = k then some v else assocLookup t k

/-- Dict assignment: update in place, append when absent (insertion order). -/
def assocSet {α : Type} (l : List (String × α)) (k : String) (v : α) :
    List (String × α) :=
  match l with
  | [] => [(k, v)]
  | (k', v') :: t => if k' = k then (k, v) :: t else (k', v') :: assocSet t k v

/-- Dict deletion. -/
def assocDelete {α : Type} (l : List (String × α)) (k : String) :
    List (String × α) :=
  match l with
  | [] => []
  | (k', v') :: t => if k' = k then t else (k', v') :: assocDelete t k

/-- Substring test (Python's `"CE" in sym`). -/
def strContains (s pat : String) : Bool := decide (pat.toList <:+: s.toList)

/-! ## BacktestBroker (src/src/broker/backtest_broker.py) -/

/-- An entry of `BacktestBroker.active_positions`. -/
structure BTPosition where
  symbol : String
  quantity : ℤ
  entry_price : ℚ
  stop_loss : ℚ
  target : ℚ
  strategy : String
  deriving Repr, DecidableEq

/-- An entry of `BacktestBroker.trades`. -/
structure BTTrade where
  timestamp : String
  order_id : String
  symbol : String
  side : String
  quantity : ℤ
  price : ℚ
  strategy : String
  costs : ℚ
  pnl : ℚ
  deriving Repr, DecidableEq

/-- The dict returned by `BacktestBroker.place_order`. -/
structure BTOrderResult where
  order_id : String
  status : String
  average_price : ℚ
  quantity : ℤ
  costs : ℚ
  deriving Repr, DecidableEq

/-- The state of a `BacktestBroker`. -/
structure BacktestBrokerS where
  trades : List BTTrade
  active_positions : List (String × BTPosition)
  capital : ℚ
  initial_capital : ℚ
  slippage_pct : ℚ
  total_brokerage : ℚ
  total_taxes : ℚ
  deriving Repr, DecidableEq

/-- `BacktestBroker.__init__(initial_capital, slippage_pct)`. -/
def btInit (initial_capital slippage_pct : ℚ) : BacktestBrokerS :=
  { trades := [], active_positions := [], capital := initial_capital,
    initial_capital := initial_capital, slippage_pct := slippage_pct,
    total_brokerage := 0, total_taxes := 0 }

/-- `BacktestBroker.place_order`. `timestamp` is the caller-supplied fill
time; `now` models `datetime.now()`, used only when `timestamp` is absent. -/
def btPlaceOrder (b : BacktestBrokerS) (symbol : String) (quantity : ℤ)
    (side : String) (price stop_loss target : ℚ) (strategy_tag : String)
    (timestamp : Option String) (now : String) :
    BacktestBrokerS × BTOrderResult :=
  let m : ℚ := 1 + b.slippage_pct / 100
  let executed_price : ℚ := if side = "BUY" then price * m else price / m
  let order_id : String := "BT-" ++ toString (b.trades.length + 1)
  let cb := getBreakdown executed_price quantity side
  let total_costs : ℚ := cb.total
  let step : ℚ × List (String × BTPosition) × ℚ :=
    if side = "BUY" then
      let cap := b.capital - (executed_price * quantity + total_costs)
      match assocLookup b.active_positions symbol with
      | some curr =>
          let total_cost := curr.entry_price * curr.quantity + executed_price * quantity
          let new_qty := curr.quantity + quantity
          let avg_price := total_cost / new_qty
          (cap, assocSet b.active_positions symbol
            { curr with quantity := new_qty, entry_price := avg_price }, 0)
      | none =>
          (cap, assocSet b.active_positions symbol
            { symbol := symbol, quantity := quantity, entry_price := executed_price,
              stop_loss := stop_loss, target := target, strategy := strategy_tag }, 0)
    else if side = "SELL" then
      match assocLookup b.active_positions symbol with
      | some curr =>
          let remaining := curr.quantity - quantity
          let gross_pnl := (executed_price - curr.entry_price) * quantity
          let pnl := gross_pnl - total_costs
          let cap := b.capital + pnl
          if remaining ≤ 0 then (cap, assocDelete b.active_positions symbol, pnl)
          else (cap, assocSet b.active_positions symbol
                 { curr with quantity := remaining }, pnl)
      | none => (b.capital, b.active_positions, 0)
    else (b.capital, b.active_positions, 0)
  let trade : BTTrade :=
    { timestamp := timestamp.getD now, order_id := order_id, symbol := symbol,
      side := side, quantity := quantity, price := executed_price,
      strategy := strategy_tag, costs := roundQ2 total_costs,
      pnl := if side = "SELL" then step.2.2 else 0 }
  let b' : BacktestBrokerS :=
    { b with
      trades := b.trades ++ [trade],
      active_positions := step.2.1,
      capital := step.1,
      total_brokerage := b.total_brokerage + cb.brokerage,
      total_taxes := b.total_taxes +
        (cb.stt + cb.stamp_duty + cb.exchange_charges + cb.sebi_fees + cb.gst) }
  (b', { order_id := order_id, status := "COMPLETE",
         average_price := executed_price, quantity := quantity,
         costs := roundQ2 total_costs })

/-- `BacktestBroker.get_pnl(symbol, current_ltp)`: unrealized long P&L. -/
def btGetPnl (b : BacktestBrokerS) (symbol : String) (current_ltp : ℚ) : ℚ :=
  match assocLookup b.active_positions symbol with
  | none => 0
  | some pos => (current_ltp - pos.entry_price) * pos.quantity

/-- The end-of-series force-exit step of `BacktestRunner.run`: for every open
position, place a SELL at the row's call/put price with tag FORCE_EXIT; the
`timestamp` argument is omitted at this call site, so the broker stamps the
wall clock `now`. -/
def runnerForceExit (b : BacktestBrokerS) (call_price put_price : ℚ)
    (now : String) : BacktestBrokerS :=
  (b.active_positions.map Prod.snd).foldl
    (fun acc pos =>
      let curr_price := if strContains pos.symbol "CE" then call_price else put_price
      (btPlaceOrder acc pos.symbol pos.quantity "SELL" curr_price 0 0
        "FORCE_EXIT" none now).1)
    b

/-! ## TradeState / StateManager (src/state/state_manager.py) -/

/-- The position dict stored by `PaperBroker.place_order` under a symbol. -/
structure PaperPosition where
  token : ℤ
  symbol : String
  side : String
  quantity : ℤ
  entry_price : ℚ
  stop_loss : ℚ
  target : ℚ
  option_type : String
  strategy_name : String
  timestamp : String
  product : String
  order_type : String
  strike : ℤ
  deriving Repr, DecidableEq

/-- An entry of `TradeState.orders`. -/
structure PaperOrderRec where
  order_id : String
  timestamp : String
  symbol : String
  side : String
  quantity : ℤ
  price : ℚ
  status : String
  strategy : String
  slippage : ℚ
  costs : ℚ
  pnl : ℚ
  deriving Repr, DecidableEq

/-- The `TradeState` dataclass exactly as declared in the source: daily pnl,
kill-switch flag, open positions, order log and last-updated stamp. The
source dataclass declares NO `closed_trades` field. -/
structure TradeStateS where
  daily_pnl : ℚ
  kill_switch_active : Bool
  open_positions : List (String × PaperPosition)
  orders : List PaperOrderRec
  last_updated : String
  deriving Repr, DecidableEq

/-- The methods defined on class `StateManager` in the source
(src/state/state_manager.py); attribute access outside this list raises
`AttributeError` in Python. -/
def stateManagerMethods : List String :=
  ["__init__", "load", "save", "get_state", "update_pnl", "set_kill_switch",
   "add_position", "close_position", "add_order", "get_active_tokens"]

/-! ## PaperBroker (src/src/broker/paper_broker.py) -/

/-- Accumulate the value of a digit run. -/
def digitsVal (l : List Char) : ℤ :=
  l.foldl (fun acc c => 10 * acc + ((c.toNat : ℤ) - ('0'.toNat : ℤ))) 0

/-- Scan for the first digit run immediately followed by CE or PE
(the behaviour of `re.search(r'(\d+)(CE|PE)', clean)`). Fuel bounds the
recursion by the input length. -/
def parseSymbolAux (fuel : ℕ) (l : List Char) : Option (ℤ × String) :=
  match fuel, l with
  | 0, _ => none
  | _, [] => none
  | fuel' + 1, c :: t =>
    if c.isDigit then
      let run := c :: t.takeWhile Char.isDigit
      let rest := t.dropWhile Char.isDigit
      match rest with
      | 'C' :: 'E' :: _ => some (digitsVal run, "CE")
      | 'P' :: 'E' :: _ => some (digitsVal run, "PE")
      | _ => parseSymbolAux fuel' rest
    else parseSymbolAux fuel' t

/-- `PaperBroker._parse_symbol`: strip spaces, extract `(strike, type)`;
`(0, "OPT")` when no match. -/
def parseSymbol (s : String) : ℤ × String :=
  let clean := s.toList.filter (fun c => c ≠ ' ')
  match parseSymbolAux clean.length clean with
  | some r => r
  | none => (0, "OPT")

/-- The dict returned by `PaperBroker.place_order`. `Option` fields model
keys present only in one of the two return shapes (the REJECTED dict has no
`average_price`/`slippage`/`costs`/`timestamp` key and a `None` order id). -/
structure PaperOrderResult where
  order_id : Option String
  status : String
  message : String
  symbol : String
  side : String
  quantity : ℤ
  average_price : Option ℚ
  slippage : Option ℚ
  costs : Option ℚ
  timestamp : Option String
  deriving Repr, DecidableEq

/-- A `PaperBroker` together with the state it mutates: the persisted ledger
(via StateManager) and the risk manager it reads capital from. -/
structure PaperState where
  ledger : TradeStateS
  risk : RiskManagerS
  slippage_pct : ℚ
  deriving Repr, DecidableEq

/-- The validation layer of `PaperBroker.place_order`: the list of
validation error messages, in source order. -/
def paperValidationErrors (st : PaperState) (symbol : String) (quantity : ℤ)
    (side order_type : String) (price trigger_price : ℚ) : List String :=
  let e1 := if quantity ≤ 0 then ["Quantity must be positive"] else []
  let e2 := if symbol = "" ∨ symbol.length < 3 then ["Invalid symbol"] else []
  let e3 := if side ≠ "BUY" ∧ side ≠ "SELL" then ["Side must be BUY or SELL"] else []
  let e4 := if order_type ∉ ["MARKET", "LIMIT", "SL", "SL-M"] then
              ["Invalid order type"] else []
  let e5 := if order_type ∈ ["MARKET", "LIMIT", "SL"] ∧ price ≤ 0 then
              ["order requires valid price"] else []
  let e6 := if order_type = "SL-M" ∧ trigger_price ≤ 0 then
              ["SL-M order requires valid trigger_price"] else []
  let e7 := if side = "BUY" ∧ 0 < price ∧
               price * quantity + calculateTransactionCost price quantity side >
                 st.risk.current_capital then
              ["Insufficient capital"] else []
  e1 ++ e2 ++ e3 ++ e4 ++ e5 ++ e6 ++ e7

/-- `PaperBroker.place_order`: validation layer, slippage/execution price by
order type, cost calculation, position add/average on BUY, order-log append.
`oid` models the fresh uuid-based order id and `now` the wall clock. -/
def paperPlaceOrder (st : PaperState) (symbol : String) (quantity : ℤ)
    (side product order_type : String) (price trigger_price stop_loss target : ℚ)
    (strategy_tag : String) (token : ℤ) (oid now : String) :
    PaperState × PaperOrderResult :=
  let validation_errors :=
    paperValidationErrors st symbol quantity side order_type price trigger_price
  if validation_errors ≠ [] then
    (st, { order_id := none, status := "REJECTED",
           message := String.intercalate "; " validation_errors,
           symbol := symbol, side := side, quantity := quantity,
           average_price := none, slippage := none, costs := none,
           timestamp := none })
  else
    let slip_exec : ℚ × ℚ :=
      if order_type = "MARKET" then
        if side = "BUY" then (price * st.slippage_pct, price + price * st.slippage_pct)
        else if side = "SELL" then (price * st.slippage_pct, price - price * st.slippage_pct)
        else (0, price)
      else if order_type = "SL-M" then (0, trigger_price)
      else (0, price)
    let slippage := slip_exec.1
    let executed_price := slip_exec.2
    let costs := calculateTransactionCost executed_price quantity side
    let positions' : List (String × PaperPosition) :=
      if side = "BUY" then
        match assocLookup st.ledger.open_positions symbol with
        | some existing_pos =>
            let new_qty := existing_pos.quantity + quantity
            let avg_price := (existing_pos.entry_price * existing_pos.quantity +
              executed_price * quantity) / new_qty
            assocSet st.ledger.open_positions symbol
              { existing_pos with
                  quantity := new_qty
                  entry_price := roundQ2 avg_price
                  timestamp := now }
        | none =>
            let parsed := parseSymbol symbol
            assocSet st.ledger.open_positions symbol
              { token := token, symbol := symbol, side := side,
                quantity := quantity, entry_price := roundQ2 executed_price,
                stop_loss := stop_loss, target := target,
                option_type := parsed.2, strategy_name := strategy_tag,
                timestamp := now, product := product, order_type := order_type,
                strike := parsed.1 }
      else st.ledger.open_positions
    let order_record : PaperOrderRec :=
      { order_id := oid, timestamp := now, symbol := symbol, side := side,
        quantity := quantity, price := roundQ2 executed_price,
        status := "EXECUTED", strategy := strategy_tag,
        slippage := roundQ2 slippage, costs := roundQ2 costs, pnl := 0 }
    ({ st with ledger :=
         { st.ledger with open_positions := positions',
                          orders := st.ledger.orders ++ [order_record],
                          last_updated := now } },
     { order_id := some oid, status := "COMPLETE", message := "",
       symbol := symbol, side := side, quantity := quantity,
       average_price := some (roundQ2 executed_price),
       slippage := some (roundQ2 slippage), costs := some (roundQ2 costs),
       timestamp := some now })

/-- The realized net P&L computed by `PaperBroker.close_position`: gross by
original side, minus the exit-leg and entry-leg breakdown totals recomputed
at the exit and entry prices. -/
def paperNetPnl (entry_side : String) (entry_price exit_price : ℚ)
    (qty : ℤ) : ℚ :=
  let gross_pnl : ℚ :=
    if entry_side = "BUY" then (exit_price - entry_price) * qty
    else (entry_price - exit_price) * qty
  let exit_side := if entry_side = "BUY" then "SELL" else "BUY"
  gross_pnl - (getBreakdown exit_price qty exit_side).total
            - (getBreakdown entry_price qty entry_side).total

/-- The dict returned by `PaperBroker.close_position` on its non-raising
paths. -/
structure CloseResult where
  status : String
  message : String
  symbol : String
  exit_price : ℚ
  net_pnl : ℚ
  reason : String
  deriving Repr, DecidableEq

/-- `PaperBroker.close_position(symbol, price, reason)`. Python exceptions
(the `KeyError` on a rejected internal order, and the `AttributeError` from
calling the undefined `StateManager.add_closed_trade`) are modelled as
`.error`; the state component carries the mutations that were persisted
before the exception was raised. -/
def paperClosePosition (st : PaperState) (symbol : String) (price : ℚ)
    (reason oid now : String) : PaperState × Except String CloseResult :=
  match assocLookup st.ledger.open_positions symbol with
  | none => (st, .ok { status := "error", message := "Position not found",
                       symbol := symbol, exit_price := 0, net_pnl := 0,
                       reason := reason })
  | some pos =>
    let qty := pos.quantity
    let entry_price := pos.entry_price
    let entry_side := pos.side
    let exit_side := if entry_side = "BUY" then "SELL" else "BUY"
    let r1 := paperPlaceOrder st symbol qty exit_side "MIS" "MARKET" price 0 0 0
      "MANUAL" 0 oid now
    let st1 := r1.1
    match r1.2.average_price with
    | none => (st1, .error "KeyError: average_price")
    | some exit_price =>
      let net_pnl := paperNetPnl entry_side entry_price exit_price qty
      let ledger1 := { st1.ledger with daily_pnl := st1.ledger.daily_pnl + net_pnl }
      let risk1 := updatePnl st1.risk net_pnl
      let ledger2 := { ledger1 with
        open_positions := assocDelete ledger1.open_positions symbol }
      let st2 : PaperState := { st1 with ledger := ledger2, risk := risk1 }
      if "add_closed_trade" ∈ stateManagerMethods then
        (st2, .ok { status := "closed", message := "", symbol := symbol,
                    exit_price := exit_price, net_pnl := net_pnl,
                    reason := reason })
      else
        (st2, .error "AttributeError: StateManager object has no attribute add_closed_trade")

/-! ## Concrete states used by witnesses and counterexamples -/

/-- A risk manager whose kill switch tripped at the loss limit. -/
def rmTripped : RiskManagerS :=
  { total_capital := 100000
    current_capital := 95000
    max_daily_loss_limit := -5000
    min_rr := 2
    daily_pnl := -5000
    kill_switch_active := true }

/-- A risk manager whose kill switch flag is set but whose daily pnl has
recovered above the loss limit. -/
def rmRecovered : RiskManagerS :=
  { total_capital := 100000
    current_capital := 96000
    max_daily_loss_limit := -5000
    min_rr := 2
    daily_pnl := -4000
    kill_switch_active := true }

/-- The `current_capital − daily_pnl = total_capital` bookkeeping relation of
`RiskManager`. -/
def riskInvariant (s : RiskManagerS) : Prop :=
  s.current_capital - s.daily_pnl = s.total_capital

/-- A fresh backtest broker (capital 100000, zero slippage) after one BUY fill
of 65 units at price 100. -/
def btDemoAfterBuy : BacktestBrokerS :=
  (btPlaceOrder (btInit 100000 0) "NIFTY 24000 CE" 65 "BUY" 100 0 0
    "STRATEGY_ENTRY" (some "2024-01-02 09:20:00") "wall").1

/-- The same broker after the position is fully closed by a SELL fill of the
65 units at price 110. -/
def btDemoAfterSell : BacktestBrokerS :=
  (btPlaceOrder btDemoAfterBuy "NIFTY 24000 CE" 65 "SELL" 110 0 0
    "TIME_EXIT" (some "2024-01-02 15:15:00") "wall").1

/-- The position held by `btDemoAfterBuy`. -/
def btDemoPos : BTPosition :=
  { symbol := "NIFTY 24000 CE"
    quantity := 65
    entry_price := 100
    stop_loss := 0
    target := 0
    strategy := "STRATEGY_ENTRY" }

/-- An empty persisted ledger. -/
def emptyLedger : TradeStateS :=
  { daily_pnl := 0
    kill_switch_active := false
    open_positions := []
    orders := []
    last_updated := "t0" }

/-- A paper broker over an empty ledger with the default 0.05% slippage. -/
def emptyPaperState : PaperState :=
  { ledger := emptyLedger
    risk := riskInit 100000 (5/100) 2
    slippage_pct := 5/10000 }

/-- An open long paper position: 75 units at entry 100. -/
def paperPos0 : PaperPosition :=
  { token := 0
    symbol := "NIFTY26350PE"
    side := "BUY"
    quantity := 75
    entry_price := 100
    stop_loss := 90
    target := 120
    option_type := "PE"
    strategy_name := "MANUAL"
    timestamp := "2024-01-02T09:30:00"
    product := "MIS"
    order_type := "MARKET"
    strike := 26350 }

/-- A paper broker holding `paperPos0`. -/
def paperStateWithPos : PaperState :=
  { ledger :=
      { daily_pnl := 0
        kill_switch_active := false
        open_positions := [("NIFTY26350PE", paperPos0)]
        orders := []
        last_updated := "t0" }
    risk := riskInit 100000 (5/100) 2
    slippage_pct := 5/10000 }

/-! ## Helper lemmas -/

theorem floorQ_eq_floor (x : ℚ) : floorQ x = ⌊x⌋ := by
  rw [floorQ, Rat.floor_def, Int.fdiv_eq_ediv]
  exact Int.ofNat_nonneg x.den

theorem minQ_eq_min (a b : ℚ) : minQ a b = min a b := (min_def a b).symm

theorem absQ_eq_abs (a : ℚ) : absQ a = |a| := by
  rw [absQ]
  rcases lt_or_le a 0 with h | h
  · rw [if_pos h, abs_of_neg h]
  · rw [if_neg (not_lt.mpr h), abs_of_nonneg h]

theorem floorQ_eq_int (x : ℚ) (n : ℤ) (h1 : (n : ℚ) ≤ x) (h2 : x < n + 1) :
    floorQ x = n := by
  rw [floorQ_eq_floor]
  exact Int.floor_eq_iff.mpr ⟨h1, h2⟩

theorem pyTrunc_eq_int (x : ℚ) (n : ℤ) (h0 : 0 ≤ x) (h1 : (n : ℚ) ≤ x)
    (h2 : x < n + 1) : pyTrunc x = n := by
  rw [pyTrunc, if_pos h0]
  exact floorQ_eq_int x n h1 h2

theorem roundQ2_eq_lo (x : ℚ) (n : ℤ) (h1 : (n : ℚ) ≤ 100 * x)
    (h2 : 100 * x < n + 1/2) : roundQ2 x = n / 100 := by
  have hf : floorQ (100 * x) = n := floorQ_eq_int _ n h1 (by linarith)
  have hfrac : 100 * x - (n : ℚ) < 1/2 := by linarith
  unfold roundQ2 roundHalfEvenZ
  rw [hf, if_pos hfrac]

theorem roundQ2_eq_hi (x : ℚ) (n : ℤ) (h1 : (n : ℚ) + 1/2 < 100 * x)
    (h2 : 100 * x < n + 1) : roundQ2 x = (n + 1) / 100 := by
  have hf : floorQ (100 * x) = n := floorQ_eq_int _ n (by linarith) h2
  have hfrac1 : ¬(100 * x - (n : ℚ) < 1/2) := by push_neg; linarith
  have hfrac2 : (1/2 : ℚ) < 100 * x - n := by linarith
  unfold roundQ2 roundHalfEvenZ
  rw [hf, if_neg hfrac1, if_pos hfrac2]
  push_cast
  ring

theorem checkKillSwitch_mono (s : RiskManagerS) (h : s.kill_switch_active = true) :
    (checkKillSwitch s).1.kill_switch_active = true := by
  unfold checkKillSwitch
  split <;> simp [h]

theorem updatePnl_mono (s : RiskManagerS) (p : ℚ) (h : s.kill_switch_active = true) :
    (updatePnl s p).kill_switch_active = true := by
  unfold updatePnl
  exact checkKillSwitch_mono _ h

theorem applyUpdates_mono (s : RiskManagerS) (l : List ℚ)
    (h : s.kill_switch_active = true) :
    (applyUpdates s l).kill_switch_active = true := by
  induction l generalizing s with
  | nil => exact h
  | cons p t ih => exact ih _ (updatePnl_mono s p h)

theorem getBreakdown_buy_100_65 : (getBreakdown 100 65 "BUY").total = 2649/100 := by
  unfold getBreakdown
  norm_num +decide
  rw [roundQ2_eq_lo _ 2649 (by norm_num) (by norm_num)]
  norm_num

theorem getBreakdown_sell_110_65 : (getBreakdown 110 65 "SELL").total = 843/25 := by
  unfold getBreakdown
  norm_num +decide
  rw [roundQ2_eq_hi _ 3371 (by norm_num) (by norm_num)]
  norm_num

theorem paperValidationErrors_sell_nil (st : PaperState) (sym : String) (qty : ℤ)
    (price trig : ℚ) (hq : 0 < qty) (hp : 0 < price) (hlen : ¬sym.length < 3) :
    paperValidationErrors st sym qty "SELL" "MARKET" price trig = [] := by
  have hsym : ¬(sym = "" ∨ sym.length < 3) := by
    rintro (rfl | h) <;> simp_all
  unfold paperValidationErrors
  rw [if_neg (not_le.mpr hq), if_neg hsym]
  simp +decide [not_le.mpr hp]

/-! ## Claim theorems -/

/-- Claim C1: refuted on the code (code bug). After a BUY fill of 65 units at
price 100 and a full close by a SELL fill at price 110 (capital 100000, zero
slippage), the broker's settled capital is 94089.79, not the claimed initial
capital plus round-trip net P&L (100000 + (650 − 26.49 − 33.72) = 100589.79):
the SELL branch adds only the P&L back to capital and never returns the entry
notional (entry price × quantity = 6500) that the BUY branch deducted. -/
theorem backtest_capital_omits_entry_notional :
    btDemoAfterSell.active_positions = [] ∧
    btDemoAfterSell.capital = 9408979/100 ∧
    100000 + ((110 - 100) * 65 - (getBreakdown 100 65 "BUY").total
      - (getBreakdown 110 65 "SELL").total) = 10058979/100 ∧
    btDemoAfterSell.capital ≠ 100000 + ((110 - 100) * 65
      - (getBreakdown 100 65 "BUY").total - (getBreakdown 110 65 "SELL").total) ∧
    btDemoAfterSell.capital + 100 * 65 = 100000 + ((110 - 100) * 65
      - (getBreakdown 100 65 "BUY").total - (getBreakdown 110 65 "SELL").total) := by
  have hb : (getBreakdown 100 65 "BUY").total = 2649/100 := getBreakdown_buy_100_65
  have hs : (getBreakdown 110 65 "SELL").total = 843/25 := getBreakdown_sell_110_65
  unfold btDemoAfterSell btDemoAfterBuy btInit btPlaceOrder
  norm_num +decide [assocLookup, assocSet, assocDelete, hb, hs]

/-- Claim C2, counterexample: in the BacktestBroker, the P&L recorded on the
close fill (65 units bought at 100, sold at 110, zero slippage) is
616.28 = gross 650 minus only the exit-leg cost 33.72; it does not equal
gross minus BOTH legs' costs (650 − 26.49 − 33.72 = 589.79) as the claim
states for both brokers. -/
theorem backtest_close_pnl_omits_entry_costs :
    (btDemoAfterSell.trades.getLast?).map BTTrade.pnl = some (15407/25) ∧
    (15407/25 : ℚ) ≠ (110 - 100) * 65 - (getBreakdown 100 65 "BUY").total
      - (getBreakdown 110 65 "SELL").total := by
  have hb : (getBreakdown 100 65 "BUY").total = 2649/100 := getBreakdown_buy_100_65
  have hs : (getBreakdown 110 65 "SELL").total = 843/25 := getBreakdown_sell_110_65
  unfold btDemoAfterSell btDemoAfterBuy btInit btPlaceOrder
  norm_num +decide [assocLookup, assocSet, assocDelete, hb, hs]

/-- Claim C2, amended: (1) PaperBroker's close P&L equals gross P&L (sign by
original side) minus BOTH entry-leg and exit-leg costs recomputed from the
cost model at the actual entry and exit prices; (2) close_position applies
exactly that net P&L to the persisted daily P&L; (3) BacktestBroker's close
fill instead records gross P&L minus ONLY the exit-leg cost (the entry-leg
cost was charged to capital at entry time). -/
theorem close_pnl_subtracts_cost_legs :
    (∀ (entry_side : String) (entry_price exit_price : ℚ) (qty : ℤ),
       paperNetPnl entry_side entry_price exit_price qty =
         (if entry_side = "BUY" then (exit_price - entry_price) * qty
          else (entry_price - exit_price) * qty)
         - (getBreakdown entry_price qty entry_side).total
         - (getBreakdown exit_price qty
             (if entry_side = "BUY" then "SELL" else "BUY")).total) ∧
    (∀ (st : PaperState) (sym : String) (price : ℚ) (reason oid now : String)
       (pos : PaperPosition),
       assocLookup st.ledger.open_positions sym = some pos →
       pos.side = "BUY" → 0 < pos.quantity → 0 < price → ¬sym.length < 3 →
       (paperClosePosition st sym price reason oid now).1.ledger.daily_pnl =
         st.ledger.daily_pnl +
           paperNetPnl "BUY" pos.entry_price
             (roundQ2 (price - price * st.slippage_pct)) pos.quantity) ∧
    (∀ (b : BacktestBrokerS) (sym : String) (qty : ℤ) (price sl tg : ℚ)
       (tag : String) (ts : Option String) (now : String) (pos : BTPosition),
       assocLookup b.active_positions sym = some pos →
       ((btPlaceOrder b sym qty "SELL" price sl tg tag ts now).1.trades.getLast?).map
           BTTrade.pnl =
         some ((price / (1 + b.slippage_pct / 100) - pos.entry_price) * qty
           - (getBreakdown (price / (1 + b.slippage_pct / 100)) qty "SELL").total)) := by
  refine ⟨?_, ?_, ?_⟩
  · intro entry_side entry_price exit_price qty
    unfold paperNetPnl
    by_cases h : entry_side = "BUY" <;> simp [h] <;> ring
  · intro st sym price reason oid now pos hlook hside hq hp hlen
    have hv : ¬(paperValidationErrors st sym pos.quantity "SELL" "MARKET" price 0 ≠ []) := by
      rw [paperValidationErrors_sell_nil st sym pos.quantity price 0 hq hp hlen]
      simp
    unfold paperClosePosition
    rw [hlook]
    simp only [hside]
    unfold paperPlaceOrder
    norm_num +decide [hv]
  · intro b sym qty price sl tg tag ts now pos hlook
    unfold btPlaceOrder
    simp +decide [hlook]
    split <;> rfl

/-- Witness for C2's amended theorem: the BacktestBroker conjunct applied to
the concrete one-position broker. -/
theorem close_pnl_subtracts_cost_legs_witness :
    ((btPlaceOrder btDemoAfterBuy "NIFTY 24000 CE" 65 "SELL" 110 0 0 "TIME_EXIT"
        (some "t2") "n").1.trades.getLast?).map BTTrade.pnl =
      some ((110 / (1 + btDemoAfterBuy.slippage_pct / 100) - btDemoPos.entry_price) * 65
        - (getBreakdown (110 / (1 + btDemoAfterBuy.slippage_pct / 100)) 65 "SELL").total) :=
  close_pnl_subtracts_cost_legs.2.2 btDemoAfterBuy "NIFTY 24000 CE" 65 110 0 0
    "TIME_EXIT" (some "t2") "n" btDemoPos (by
      unfold btDemoAfterBuy btInit btPlaceOrder btDemoPos
      norm_num +decide [assocLookup, assocSet])

/-- Claim C3: refuted on the code (code bug). The persisted `TradeState`
dataclass has no ClosedTrades list, and class `StateManager` defines no
`add_closed_trade` method, yet `PaperBroker.close_position` calls
`state_manager.add_closed_trade(...)` on every close: closing the open
position raises AttributeError after daily_pnl has already been updated, and
no ClosedTrade record is appended anywhere in the persisted state. -/
theorem close_position_ledger_lacks_closed_trades :
    "add_closed_trade" ∉ stateManagerMethods ∧
    (paperClosePosition paperStateWithPos "NIFTY26350PE" 105 "Signal" "oid1"
        "2024-01-02T10:00:00").2 =
      Except.error "AttributeError: StateManager object has no attribute add_closed_trade" ∧
    (paperClosePosition paperStateWithPos "NIFTY26350PE" 105 "Signal" "oid1"
        "2024-01-02T10:00:00").1.ledger.daily_pnl =
      paperNetPnl "BUY" 100 (roundQ2 (105 - 105 * (5/10000))) 75 := by
  refine ⟨by decide, ?_, ?_⟩ <;>
    · unfold paperClosePosition paperPlaceOrder paperValidationErrors
        paperStateWithPos paperPos0 assocLookup
      norm_num +decide

/-- Claim C4: refuted on the code (code bug). The end-of-series FORCE_EXIT
step of `BacktestRunner.run` calls `place_order` without the `timestamp`
argument, so the broker stamps the trade record with the wall clock: two runs
over identical strategy, price series and configuration that differ only in
wall-clock time produce different trade logs (their timestamp columns
differ), not byte-identical ones. -/
theorem force_exit_stamped_with_wall_clock :
    ((runnerForceExit btDemoAfterBuy 110 50 "2025-03-01 10:00:00").trades.map
        BTTrade.timestamp ≠
      (runnerForceExit btDemoAfterBuy 110 50 "2025-03-02 11:30:00").trades.map
        BTTrade.timestamp) ∧
    (runnerForceExit btDemoAfterBuy 110 50 "2025-03-01 10:00:00").trades ≠
      (runnerForceExit btDemoAfterBuy 110 50 "2025-03-02 11:30:00").trades := by
  have h : (runnerForceExit btDemoAfterBuy 110 50 "2025-03-01 10:00:00").trades.map
        BTTrade.timestamp ≠
      (runnerForceExit btDemoAfterBuy 110 50 "2025-03-02 11:30:00").trades.map
        BTTrade.timestamp := by
    unfold runnerForceExit btDemoAfterBuy btInit btPlaceOrder
    norm_num +decide [assocLookup, assocSet]
  exact ⟨h, fun he => h (congrArg (List.map BTTrade.timestamp) he)⟩

/-- Claim C5: once the kill switch has tripped (daily_pnl ≤ limit sets the
flag), the flag survives every later `update_pnl` — including ones that
recover daily_pnl above the limit — and `get_target_size` returns 0 on every
subsequent call; neither `check_kill_switch` nor `update_pnl` ever clears the
flag. -/
theorem kill_switch_monotone :
    (∀ s : RiskManagerS, s.daily_pnl ≤ s.max_daily_loss_limit →
        (checkKillSwitch s).1.kill_switch_active = true) ∧
    (∀ s : RiskManagerS, s.kill_switch_active = true → ∀ l : List ℚ,
        (applyUpdates s l).kill_switch_active = true ∧
        ∀ e st : ℚ, getTargetSize (applyUpdates s l) e st = 0) ∧
    (∀ (s : RiskManagerS) (p : ℚ), s.kill_switch_active = true →
        (checkKillSwitch s).1.kill_switch_active = true ∧
        (updatePnl s p).kill_switch_active = true) := by
  refine ⟨fun s h => ?_, fun s h l => ⟨applyUpdates_mono s l h, fun e st => ?_⟩,
    fun s p h => ⟨checkKillSwitch_mono s h, updatePnl_mono s p h⟩⟩
  · unfold checkKillSwitch
    rw [if_pos h]
  · unfold getTargetSize
    rw [if_pos (applyUpdates_mono s l h)]

/-- Witness for C5: a tripped manager stays tripped and sizes 0 after two
recovering pnl updates. -/
theorem kill_switch_monotone_witness :
    (applyUpdates rmTripped [1000, 2000]).kill_switch_active = true ∧
    getTargetSize (applyUpdates rmTripped [1000, 2000]) 100 90 = 0 :=
  ⟨(kill_switch_monotone.2.1 rmTripped rfl [1000, 2000]).1,
   (kill_switch_monotone.2.1 rmTripped rfl [1000, 2000]).2 100 90⟩

/-- Claim C6, counterexample: with the kill-switch flag set but daily_pnl
recovered above the loss limit, `validate_trade_setup` APPROVES a good-R:R
setup — it calls `check_kill_switch()`, which tests daily_pnl ≤ limit rather
than the flag — refuting the claim that every call with the flag set returns
approved = false. -/
theorem validate_approves_despite_flag :
    rmRecovered.kill_switch_active = true ∧
    rmRecovered.max_daily_loss_limit < rmRecovered.daily_pnl ∧
    (validateTradeSetup rmRecovered 100 90 130).2.approved = true := by
  refine ⟨rfl, by norm_num [rmRecovered], ?_⟩
  unfold validateTradeSetup checkKillSwitch rmRecovered absQ
  norm_num

/-- Claim C6, amended: `validate_trade_setup` returns the Kill Switch Active
rejection precisely when daily_pnl is at or below the loss limit at call
time; the stored flag alone does not cause rejection. -/
theorem validate_rejects_when_pnl_below_limit :
    ∀ (s : RiskManagerS) (e st t : ℚ), s.daily_pnl ≤ s.max_daily_loss_limit →
      (validateTradeSetup s e st t).2 =
        { approved := false, reason := "Kill Switch Active" } := by
  intro s e st t h
  unfold validateTradeSetup checkKillSwitch
  rw [if_pos h]
  simp

/-- Witness for C6's amended theorem at a tripped manager. -/
theorem validate_rejects_when_pnl_below_limit_witness :
    (validateTradeSetup rmTripped 100 90 130).2 =
      { approved := false, reason := "Kill Switch Active" } :=
  validate_rejects_when_pnl_below_limit rmTripped 100 90 130 (by norm_num [rmTripped])

/-- Claim C7: the default Kelly strategy (win_rate 0.45, payoff 2.0, lot 25)
at capital 100000, entry 100, stop 90, cap 0.05 returns exactly 425, and so
does `get_target_size` on a freshly initialized risk manager. -/
theorem kelly_example_returns_425 :
    kellyCalculateSize 100000 100 90 (5/100) (45/100) 2 25 = 425 ∧
    getTargetSize (riskInit 100000 (5/100) 2) 100 90 = 425 := by
  have h : kellyCalculateSize 100000 100 90 (5/100) (45/100) 2 25 = 425 := by
    unfold kellyCalculateSize minQ absQ
    norm_num
    rw [pyTrunc_eq_int _ 437 (by norm_num) (by norm_num) (by norm_num)]
    decide
  refine ⟨h, ?_⟩
  unfold getTargetSize riskInit kellyDefaultSize
  simpa using h

/-- Claim C8: whenever `PaperBroker.place_order` returns status REJECTED, the
whole broker state — open positions, order log, daily P&L and the risk
manager — is left exactly as it was. -/
theorem paper_reject_no_mutation :
    ∀ (st : PaperState) (symbol : String) (quantity : ℤ)
      (side product order_type : String)
      (price trigger_price stop_loss target : ℚ)
      (strategy_tag : String) (token : ℤ) (oid now : String),
      (paperPlaceOrder st symbol quantity side product order_type price
        trigger_price stop_loss target strategy_tag token oid now).2.status
          = "REJECTED" →
      (paperPlaceOrder st symbol quantity side product order_type price
        trigger_price stop_loss target strategy_tag token oid now).1 = st := by
  intro st symbol quantity side product order_type price trigger_price stop_loss
    target strategy_tag token oid now h
  unfold paperPlaceOrder at h ⊢
  by_cases hv : paperValidationErrors st symbol quantity side order_type price
      trigger_price ≠ []
  · rw [if_pos hv]
  · rw [if_neg hv] at h
    have h2 : ("COMPLETE" : String) = "REJECTED" := h
    exact absurd h2 (by decide)

/-- Witness for C8: a zero-quantity SELL is rejected and leaves the state
unchanged. -/
theorem paper_reject_no_mutation_witness :
    (paperPlaceOrder emptyPaperState "NIFTY26350PE" 0 "SELL" "MIS" "MARKET" 100 0
      0 0 "MANUAL" 0 "oid" "now").2.status = "REJECTED" ∧
    (paperPlaceOrder emptyPaperState "NIFTY26350PE" 0 "SELL" "MIS" "MARKET" 100 0
      0 0 "MANUAL" 0 "oid" "now").1 = emptyPaperState := by
  have h : (paperPlaceOrder emptyPaperState "NIFTY26350PE" 0 "SELL" "MIS" "MARKET"
      100 0 0 0 "MANUAL" 0 "oid" "now").2.status = "REJECTED" := by
    unfold paperPlaceOrder paperValidationErrors
    norm_num +decide
  exact ⟨h, paper_reject_no_mutation emptyPaperState "NIFTY26350PE" 0 "SELL" "MIS"
    "MARKET" 100 0 0 0 "MANUAL" 0 "oid" "now" h⟩

/-- Claim C9: `current_capital − daily_pnl = total_capital` holds after
construction and is preserved by `update_pnl` and (re-established by)
`restore_state`. -/
theorem risk_capital_invariant :
    (∀ tc pct mrr : ℚ, riskInvariant (riskInit tc pct mrr)) ∧
    (∀ (s : RiskManagerS) (p : ℚ), riskInvariant s → riskInvariant (updatePnl s p)) ∧
    (∀ (s : RiskManagerS) (d : ℚ) (k : Bool), riskInvariant (restoreState s d k)) := by
  refine ⟨fun tc pct mrr => ?_, fun s p h => ?_, fun s d k => ?_⟩
  · simp [riskInvariant, riskInit]
  · unfold riskInvariant updatePnl checkKillSwitch at *
    split <;> simp <;> linarith
  · simp [riskInvariant, restoreState]

/-- Witness for C9: the invariant after one pnl update from a fresh manager. -/
theorem risk_capital_invariant_witness :
    riskInvariant (updatePnl (riskInit 100000 (5/100) 2) (-500)) :=
  risk_capital_invariant.2.1 _ _ (risk_capital_invariant.1 100000 (5/100) 2)

/-- Claim C10: a SELL for a symbol with no open position returns COMPLETE,
appends a trade record with pnl 0, and leaves capital and the positions map
unchanged. -/
theorem backtest_sell_without_position :
    ∀ (b : BacktestBrokerS) (symbol : String) (quantity : ℤ)
      (price stop_loss target : ℚ) (tag : String) (ts : Option String) (now : String),
      assocLookup b.active_positions symbol = none →
      (btPlaceOrder b symbol quantity "SELL" price stop_loss target tag ts now).2.status
          = "COMPLETE" ∧
      (btPlaceOrder b symbol quantity "SELL" price stop_loss target tag ts now).1.capital
          = b.capital ∧
      (btPlaceOrder b symbol quantity "SELL" price stop_loss target tag ts now).1.active_positions
          = b.active_positions ∧
      (btPlaceOrder b symbol quantity "SELL" price stop_loss target tag ts now).1.trades
          = b.trades ++
        [{ timestamp := ts.getD now,
           order_id := "BT-" ++ toString (b.trades.length + 1),
           symbol := symbol, side := "SELL", quantity := quantity,
           price := price / (1 + b.slippage_pct / 100), strategy := tag,
           costs := roundQ2 (getBreakdown (price / (1 + b.slippage_pct / 100))
             quantity "SELL").total,
           pnl := 0 }] := by
  intro b symbol quantity price stop_loss target tag ts now h
  unfold btPlaceOrder
  simp +decide [h, getBreakdown]

/-- Witness for C10: a SELL on a fresh broker with no positions. -/
theorem backtest_sell_without_position_witness :
    (btPlaceOrder (btInit 100000 0) "NIFTY 24000 PE" 65 "SELL" 50 0 0 "X"
      (some "t") "n").2.status = "COMPLETE" ∧
    (btPlaceOrder (btInit 100000 0) "NIFTY 24000 PE" 65 "SELL" 50 0 0 "X"
      (some "t") "n").1.capital = (btInit 100000 0).capital :=
  ⟨(backtest_sell_without_position (btInit 100000 0) "NIFTY 24000 PE" 65 50 0 0 "X"
      (some "t") "n" rfl).1,
   (backtest_sell_without_position (btInit 100000 0) "NIFTY 24000 PE" 65 50 0 0 "X"
      (some "t") "n" rfl).2.1⟩
